import Mathlib

/-!
Verification development for the proofpoint_client package: a shallow
embedding of src/proofpoint_client/client.py, models.py and exceptions.py.

Python values that flow into JSON payloads are modelled by the mutual
inductive type PyVal (None, strings, integers, lists, dataclass instances,
and plain dicts), with PyList and PyFields as its spine types for Python
lists and for the ordered key/value fields of dataclass instances and
dicts (Python dicts preserve insertion order, which for a dataclass
instance's attribute dict is declaration order of the fields).

Time is modelled as an integer number of seconds (datetime.utcnow and
timedelta arithmetic in the source), and the outcome of a network exchange
is supplied explicitly to each operation, so that the client's sequential
control flow becomes explicit state passing over ClientState.
-/

namespace ProofpointClient

mutual

inductive PyVal where
  | none : PyVal
  | str (s : String) : PyVal
  | int (n : Int) : PyVal
  | list (xs : PyList) : PyVal
  | dataclass (fs : PyFields) : PyVal
  | dict (fs : PyFields) : PyVal
deriving DecidableEq, Repr

inductive PyList where
  | nil : PyList
  | cons (v : PyVal) (rest : PyList) : PyList
deriving DecidableEq, Repr

inductive PyFields where
  | nil : PyFields
  | cons (k : String) (v : PyVal) (rest : PyFields) : PyFields
deriving DecidableEq, Repr

end

/-- Python truthiness test `obj is None` restricted to our value model. -/
def PyVal.isNone : PyVal → Bool
  | .none => true
  | _ => false

/-- The ordered list of keys of a field sequence (a Python dict's keys). -/
def fieldsKeys : PyFields → List String
  | .nil => []
  | .cons k _ rest => k :: fieldsKeys rest

/-- The keys of the fields whose value is present (not Python None). -/
def presentKeys : PyFields → List String
  | .nil => []
  | .cons k v rest => if v.isNone then presentKeys rest else k :: presentKeys rest

/-- Concatenation of two field sequences (building one dict left to right). -/
def fieldsAppend : PyFields → PyFields → PyFields
  | .nil, gs => gs
  | .cons k v rest, gs => .cons k v (fieldsAppend rest gs)

/-- A Python list of strings as a PyList. -/
def strPyList : List String → PyList
  | [] => .nil
  | s :: rest => .cons (.str s) (strPyList rest)

mutual

/--
The inner helper convert_value of asdict_factory (client.py lines 14-19):
lists are converted elementwise; objects with dataclass fields become dicts
that keep exactly the attributes whose value is not None, converting each
kept value; every other value (None, str, int, plain dict) passes through
unchanged.
-/
def convert_value : PyVal → PyVal
  | .list xs => .list (convert_list xs)
  | .dataclass fs => .dict (convert_fields fs)
  | v => v

/-- Elementwise conversion of a Python list (list comprehension, line 16). -/
def convert_list : PyList → PyList
  | .nil => .nil
  | .cons v rest => .cons (convert_value v) (convert_list rest)

/--
The dict comprehension of lines 18 and 20: iterate the fields in order,
skip those whose value is None, and convert the value of each kept field.
-/
def convert_fields : PyFields → PyFields
  | .nil => .nil
  | .cons _ PyVal.none rest => convert_fields rest
  | .cons k v rest => .cons k (convert_value v) (convert_fields rest)

end

/--
asdict_factory (client.py lines 13-20): applied to the items() of a
dataclass instance's attribute dict, it returns the dict that keeps exactly
the non-None fields with convert_value applied to each kept value.
-/
def asdict_factory (data : PyFields) : PyVal :=
  .dict (convert_fields data)

mutual

/--
Output-side property: no dict or dataclass entry anywhere in the value
(also inside lists) carries the value None, i.e. no absent optional field
appears as a key, not even with an explicit null.
-/
def noAbsent : PyVal → Bool
  | .none => true
  | .str _ => true
  | .int _ => true
  | .list xs => noAbsentList xs
  | .dataclass fs => noAbsentFields fs
  | .dict fs => noAbsentFields fs

def noAbsentList : PyList → Bool
  | .nil => true
  | .cons v rest => noAbsent v && noAbsentList rest

def noAbsentFields : PyFields → Bool
  | .nil => true
  | .cons _ v rest => !v.isNone && noAbsent v && noAbsentFields rest

end

mutual

/--
Input-side shape of the values the client feeds to asdict_factory: no raw
dict appears inside a dataclass tree, and lists contain no None elements
(the filter dataclasses hold only optional strings, string lists and a
nested TimeRangeFilter dataclass).
-/
def cleanVal : PyVal → Bool
  | .none => true
  | .str _ => true
  | .int _ => true
  | .list xs => cleanList xs
  | .dataclass fs => cleanFields fs
  | .dict _ => false

def cleanList : PyList → Bool
  | .nil => true
  | .cons v rest => !v.isNone && cleanVal v && cleanList rest

def cleanFields : PyFields → Bool
  | .nil => true
  | .cons _ v rest => cleanVal v && cleanFields rest

end

/-! ## models.py -/

/-- SortParam (models.py lines 4-8). -/
structure SortParam where
  colId : String
  sort : String
deriving DecidableEq, Repr

/-- TimeRangeFilter (models.py lines 10-14); end is a Lean keyword. -/
structure TimeRangeFilter where
  start : String
  «end» : String
deriving DecidableEq, Repr

/-- IncidentFilters (models.py lines 16-26): all fields optional. -/
structure IncidentFilters where
  time_range_filter : Option TimeRangeFilter := Option.none
  incident_id_filters : Option (List String) := Option.none
  other_filters : Option (List String) := Option.none
  priority_filters : Option (List String) := Option.none
  source_filters : Option (List String) := Option.none
  disposition_filters : Option (List String) := Option.none
  verdict_filters : Option (List String) := Option.none
  confidence_filters : Option (List String) := Option.none
deriving DecidableEq, Repr

/--
MessageFilters (models.py lines 28-38): IncidentFilters' field set plus
message-specific fields; Python dataclass inheritance puts the inherited
fields first in declaration order.
-/
structure MessageFilters extends IncidentFilters where
  message_id_filters : Option (List String) := Option.none
  recipient_address_filters : Option (List String) := Option.none
  sender_address_filters : Option (List String) := Option.none
  subject_filters : Option (List String) := Option.none
  status_filters : Option (List String) := Option.none
  quarantine_filters : Option (List String) := Option.none
  tap_threat_filters : Option (List String) := Option.none
  tap_threat_type_filters : Option (List String) := Option.none
deriving DecidableEq, Repr

/-- A dataclass attribute that is an optional list of strings. -/
def optStrList : Option (List String) → PyVal
  | Option.none => .none
  | Option.some xs => .list (strPyList xs)

/-- A TimeRangeFilter instance as a Python dataclass value. -/
def TimeRangeFilter.toPy (t : TimeRangeFilter) : PyVal :=
  .dataclass (.cons "start" (.str t.start) (.cons "end" (.str t.«end») .nil))

/-- A dataclass attribute that is an optional nested TimeRangeFilter. -/
def optTimeRange : Option TimeRangeFilter → PyVal
  | Option.none => .none
  | Option.some t => t.toPy

/-- The attribute dict items() of an IncidentFilters instance, in field order. -/
def IncidentFilters.fields (f : IncidentFilters) : PyFields :=
  .cons "time_range_filter" (optTimeRange f.time_range_filter)
    (.cons "incident_id_filters" (optStrList f.incident_id_filters)
      (.cons "other_filters" (optStrList f.other_filters)
        (.cons "priority_filters" (optStrList f.priority_filters)
          (.cons "source_filters" (optStrList f.source_filters)
            (.cons "disposition_filters" (optStrList f.disposition_filters)
              (.cons "verdict_filters" (optStrList f.verdict_filters)
                (.cons "confidence_filters" (optStrList f.confidence_filters) .nil)))))))

/-- The attribute dict items() of a MessageFilters instance: inherited fields first. -/
def MessageFilters.fields (g : MessageFilters) : PyFields :=
  fieldsAppend g.toIncidentFilters.fields
    (.cons "message_id_filters" (optStrList g.message_id_filters)
      (.cons "recipient_address_filters" (optStrList g.recipient_address_filters)
        (.cons "sender_address_filters" (optStrList g.sender_address_filters)
          (.cons "subject_filters" (optStrList g.subject_filters)
            (.cons "status_filters" (optStrList g.status_filters)
              (.cons "quarantine_filters" (optStrList g.quarantine_filters)
                (.cons "tap_threat_filters" (optStrList g.tap_threat_filters)
                  (.cons "tap_threat_type_filters" (optStrList g.tap_threat_type_filters) .nil))))))))

/-- A SortParam's p.__dict__, used verbatim (not via asdict_factory) in payloads. -/
def SortParam.toPy (p : SortParam) : PyVal :=
  .dict (.cons "colId" (.str p.colId) (.cons "sort" (.str p.sort) .nil))

/-- The list [p.__dict__ for p in sort_params]. -/
def sortParamsPy : List SortParam → PyList
  | [] => .nil
  | p :: rest => .cons p.toPy (sortParamsPy rest)

/-! ## exceptions.py -/

/--
The concrete exception class raised (exceptions.py): generic is the base
ProofpointApiException; the other three are its subclasses for
authentication (401/403), bad request (400) and rate limit (429).
-/
inductive ErrKind where
  | generic : ErrKind
  | auth : ErrKind
  | badRequest : ErrKind
  | rateLimit : ErrKind
deriving DecidableEq, Repr

/--
An exception instance: the most-derived class raised, the message argument
(a Python value, normally a string), and the optional status_code and
response_text constructor arguments (both default to None).
-/
structure ApiError where
  kind : ErrKind
  message : PyVal
  status_code : Option Nat
  response_text : Option String
deriving DecidableEq, Repr

/-! ## Network exchange model

The transport layer (the requests library) is outside the program; each
operation takes the outcome of its network exchange as an explicit input.
-/

/--
A response object delivered by the transport: status_code, decoded body
text, raw body bytes (response.content), and jsonBody, the result of
response.json() when the body text parses as JSON (Option.none when it
does not).
-/
structure HttpResponse where
  status_code : Nat
  text : String
  content : List Nat
  jsonBody : Option PyVal
deriving DecidableEq, Repr

/-- Outcome of a transport call: an exception from the requests library
(requests.exceptions.RequestException, carrying its description) or a
response object. -/
inductive TransportOutcome where
  | failure (msg : String) : TransportOutcome
  | response (r : HttpResponse) : TransportOutcome
deriving DecidableEq, Repr

/--
A token-endpoint response with a well-formed JSON body, as read by
_refresh_token: status_code, body text, and the access_token and optional
expires_in members of the parsed body. (A body from which access_token or
a JSON object cannot be read makes the Python code raise an untyped
KeyError/decode error; no claim depends on that case, so it is outside the
model.)
-/
structure TokenResponse where
  status_code : Nat
  text : String
  access_token : String
  expires_in : Option Int
deriving DecidableEq, Repr

/-- Outcome of the POST to the token endpoint. -/
inductive TokenEndpointOutcome where
  | transportFailure (msg : String) : TokenEndpointOutcome
  | response (r : TokenResponse) : TokenEndpointOutcome
deriving DecidableEq, Repr

/-! ## Token lifecycle (client.py lines 52-101) -/

/--
The token fields of a ProofpointApiClient instance: _access_token and
_token_expiry (client.py lines 52-53). Times are seconds as integers.
-/
structure ClientState where
  access_token : Option String
  token_expiry : Option Int
deriving DecidableEq, Repr

/-- The state set up by __init__ before the initial _refresh_token call. -/
def initialState : ClientState :=
  { access_token := Option.none, token_expiry := Option.none }

/--
_refresh_token (client.py lines 61-94), with now the value of
datetime.utcnow(). A non-200 status raises ProofpointApiAuthError with the
status and body text (line 80-85), leaving the instance fields untouched;
on 200 the fields are overwritten with the new token and
now + (expires_in - 300), expires_in defaulting to 3600 (lines 87-91).
A requests.exceptions.RequestException is caught and re-raised as the
generic base ProofpointApiException (lines 93-94).
-/
def refresh_token (now : Int) (o : TokenEndpointOutcome) : Except ApiError ClientState :=
  match o with
  | .transportFailure e =>
      .error { kind := .generic,
               message := .str ("Failed to obtain access token: " ++ e),
               status_code := Option.none, response_text := Option.none }
  | .response r =>
      if r.status_code ≠ 200 then
        .error { kind := .auth,
                 message := .str "Failed to obtain access token",
                 status_code := Option.some r.status_code,
                 response_text := Option.some r.text }
      else
        .ok { access_token := Option.some r.access_token,
              token_expiry := Option.some (now + (r.expires_in.getD 3600 - 300)) }

/--
The refresh condition of _ensure_valid_token (client.py lines 96-101):
refresh when _access_token is falsy (None or the empty string), when
_token_expiry is None, or when the current time has reached the stored
expiry.
-/
def needs_refresh (st : ClientState) (now : Int) : Bool :=
  match st.access_token, st.token_expiry with
  | Option.none, _ => true
  | Option.some _, Option.none => true
  | Option.some tok, Option.some expiry =>
      if tok = "" then true else decide (now ≥ expiry)

/--
_ensure_valid_token (client.py lines 96-101): refresh if needed, else
no-op. The Bool records whether _refresh_token was invoked; on a failed
refresh the raised exception propagates and the caller's state is the
unchanged input state.
-/
def ensure_valid_token (st : ClientState) (now : Int) (o : TokenEndpointOutcome) :
    Except ApiError (ClientState × Bool) :=
  if needs_refresh st now then
    (refresh_token now o).map (fun st2 => (st2, true))
  else
    .ok (st, false)

/--
__init__ (client.py lines 30-59): sets both token fields to None and then
performs the initial _refresh_token call, so construction fails whenever
that refresh fails.
-/
def client_init (now : Int) (o : TokenEndpointOutcome) : Except ApiError ClientState :=
  match refresh_token now o with
  | .error e => .error e
  | .ok st => .ok st

/--
A sequence of sequential API calls on one client: each call runs
_ensure_valid_token at its time with its token-endpoint outcome (used only
if a refresh actually fires). Returns the final state and how many times
_refresh_token was invoked across the calls.
-/
def run_calls (st : ClientState) : List (Int × TokenEndpointOutcome) → Except ApiError (ClientState × Nat)
  | [] => .ok (st, 0)
  | (t, o) :: rest =>
      match ensure_valid_token st t o with
      | .error e => .error e
      | .ok (st2, did) =>
          match run_calls st2 rest with
          | .error e => .error e
          | .ok (stf, n) => .ok (stf, if did then n + 1 else n)

/--
Construction followed by a sequence of calls; the count includes the
constructor's initial refresh.
-/
def client_init_and_run (t0 : Int) (o0 : TokenEndpointOutcome)
    (calls : List (Int × TokenEndpointOutcome)) : Except ApiError (ClientState × Nat) :=
  match client_init t0 o0 with
  | .error e => .error e
  | .ok st =>
      match run_calls st calls with
      | .error e => .error e
      | .ok (stf, n) => .ok (stf, n + 1)

/-! ## Request dispatch and error mapping (client.py lines 103-169) -/

mutual

/-- Rendering used where the source interpolates a Python value into an
f-string; exact for strings (the common case), an abbreviated rendering of
Python's repr for containers. No theorem below inspects the rendered text
of a container. -/
def pyToString : PyVal → String
  | .none => "None"
  | .str s => s
  | .int n => toString n
  | .list xs => "[" ++ pyListToString xs ++ "]"
  | .dataclass fs => "\x7b" ++ pyFieldsToString fs ++ "\x7d"
  | .dict fs => "\x7b" ++ pyFieldsToString fs ++ "\x7d"

def pyListToString : PyList → String
  | .nil => ""
  | .cons v .nil => pyToString v
  | .cons v rest => pyToString v ++ ", " ++ pyListToString rest

def pyFieldsToString : PyFields → String
  | .nil => ""
  | .cons k v .nil => k ++ ": " ++ pyToString v
  | .cons k v rest => k ++ ": " ++ pyToString v ++ ", " ++ pyFieldsToString rest

end

/-- Ordered lookup in a field sequence (Python dict .get). -/
def fieldsGet : PyFields → String → Option PyVal
  | .nil, _ => Option.none
  | .cons k v rest, key => if k = key then Option.some v else fieldsGet rest key

/--
The message extraction of _handle_error (client.py lines 152-156), which
runs before the status dispatch: when the body is not valid JSON,
response.json() raises a ValueError, the except clause catches it and the
message falls back to the raw body text; when the body parses to a JSON
object, .get yields its errorMessage member or the raw body text; but when
the body parses to a non-object JSON value (array, string, number, null),
error_data.get raises an untyped AttributeError, which is neither the
ValueError caught here nor the RequestException caught in _request —
modelled as Option.none.
-/
def error_message (r : HttpResponse) : Option PyVal :=
  match r.jsonBody with
  | Option.none => Option.some (.str r.text)
  | Option.some (.dict fs) => Option.some ((fieldsGet fs "errorMessage").getD (.str r.text))
  | Option.some _ => Option.none

/--
What escapes _handle_error (and hence _request): one of the four typed
ProofpointApi exceptions, or the untyped AttributeError raised by
error_data.get when the error body parses to a non-object JSON value.
-/
inductive RaisedError where
  | typed (e : ApiError) : RaisedError
  | attributeError : RaisedError
deriving DecidableEq, Repr

/--
_handle_error (client.py lines 150-169): extract the message (the untyped
AttributeError of a non-object JSON body escapes before any status test),
then map the HTTP status to the exception raised. 400 raises BadRequest,
401 and 403 raise Auth, 429 raises RateLimit, and every other status
raises the generic base exception; each carries the status code and the
raw body text.
-/
def handle_error (r : HttpResponse) : RaisedError :=
  match error_message r with
  | Option.none => .attributeError
  | Option.some message =>
      .typed (if r.status_code = 400 then
        { kind := .badRequest, message := message,
          status_code := Option.some r.status_code, response_text := Option.some r.text }
      else if r.status_code = 401 ∨ r.status_code = 403 then
        { kind := .auth, message := message,
          status_code := Option.some r.status_code, response_text := Option.some r.text }
      else if r.status_code = 429 then
        { kind := .rateLimit, message := message,
          status_code := Option.some r.status_code, response_text := Option.some r.text }
      else
        { kind := .generic,
          message := .str ("An unknown error occurred: " ++ pyToString message),
          status_code := Option.some r.status_code, response_text := Option.some r.text })

/-- What _request hands back to its caller: a decoded JSON value or the raw
body bytes. -/
inductive RequestResult where
  | json (v : PyVal) : RequestResult
  | bytes (b : List Nat) : RequestResult
deriving DecidableEq, Repr

/--
The dispatch stage of _request after _ensure_valid_token (client.py lines
137-148): a transport failure is re-raised as the generic base exception;
a response with status in [400, 600) is routed to _handle_error and the
resulting exception propagates; otherwise, with return_json, an empty body
text yields the empty dict without parsing and a non-empty body yields the
parsed JSON value (an unparseable body surfaces as the generic exception,
the requests JSON decode error being a RequestException); without
return_json the raw body bytes are returned.
-/
def request_dispatch (return_json : Bool) (t : TransportOutcome) :
    Except RaisedError RequestResult :=
  match t with
  | .failure e =>
      .error (.typed { kind := .generic, message := .str ("Request failed: " ++ e),
                       status_code := Option.none, response_text := Option.none })
  | .response r =>
      if 400 ≤ r.status_code ∧ r.status_code < 600 then
        .error (handle_error r)
      else if return_json then
        if r.text = "" then
          .ok (.json (.dict .nil))
        else
          match r.jsonBody with
          | Option.some v => .ok (.json v)
          | Option.none =>
              .error (.typed { kind := .generic,
                               message := .str "Request failed: body is not valid JSON",
                               status_code := Option.none, response_text := Option.none })
      else
        .ok (.bytes r.content)

/--
_request (client.py lines 103-148) in full: ensure a valid token (its
failure propagates unchanged, the caller's state staying as it was), then
dispatch the transport call.
-/
def request (st : ClientState) (now : Int) (tok : TokenEndpointOutcome)
    (return_json : Bool) (t : TransportOutcome) :
    Except RaisedError (ClientState × RequestResult) :=
  match ensure_valid_token st now tok with
  | .error e => .error (.typed e)
  | .ok (st2, _) =>
      match request_dispatch return_json t with
      | .error e => .error e
      | .ok res => .ok (st2, res)

/-! ## Endpoint payload assembly (client.py lines 171-449) -/

/-- The sortParams entry: present only when sort_params is truthy, i.e.
neither None nor the empty list. -/
def sortParamsEntry : Option (List SortParam) → PyFields
  | Option.none => .nil
  | Option.some [] => .nil
  | Option.some ps => .cons "sortParams" (.list (sortParamsPy ps)) .nil

/--
The JSON payload of search_incidents (client.py lines 224-252): startRow
and endRow always; a filters entry, serialized through asdict_factory,
when a filters object is given (a dataclass instance is always truthy); a
sortParams entry when sort_params is truthy.
-/
def search_incidents_payload (filters : Option IncidentFilters)
    (start_row end_row : Int) (sort_params : Option (List SortParam)) : PyVal :=
  .dict (fieldsAppend
    (.cons "startRow" (.int start_row) (.cons "endRow" (.int end_row) .nil))
    (fieldsAppend
      (match filters with
       | Option.none => .nil
       | Option.some f => .cons "filters" (asdict_factory f.fields) .nil)
      (sortParamsEntry sort_params)))

/-- The JSON payload of search_messages (client.py lines 373-401): same
shape as search_incidents over a MessageFilters object. -/
def search_messages_payload (filters : Option MessageFilters)
    (start_row end_row : Int) (sort_params : Option (List SortParam)) : PyVal :=
  .dict (fieldsAppend
    (.cons "startRow" (.int start_row) (.cons "endRow" (.int end_row) .nil))
    (fieldsAppend
      (match filters with
       | Option.none => .nil
       | Option.some g => .cons "filters" (asdict_factory g.fields) .nil)
      (sortParamsEntry sort_params)))

/-- The JSON payload of get_incident_count (client.py lines 254-265). -/
def get_incident_count_payload (filters : IncidentFilters) : PyVal :=
  .dict (.cons "filters" (asdict_factory filters.fields) .nil)

/-- The message entry as a PyFields, for one optional string argument of
upload_message included only when truthy (neither None nor ""). -/
def optTruthyEntry (k : String) : Option String → PyFields
  | Option.none => .nil
  | Option.some s => if s = "" then .nil else .cons k (.str s) .nil

/--
The message object of upload_message (client.py lines 354-363):
rfcMessageId and recipient_addresses always; sender, subject and
disposition each included only when truthy.
-/
def upload_message_message (rfc_message_id : String) (recipient_addresses : List String)
    (sender subject disposition : Option String) : PyFields :=
  .cons "rfcMessageId" (.str rfc_message_id)
    (.cons "recipient_addresses" (.list (strPyList recipient_addresses))
      (fieldsAppend (optTruthyEntry "sender" sender)
        (fieldsAppend (optTruthyEntry "subject" subject)
          (optTruthyEntry "disposition" disposition))))

/-- The JSON payload of upload_message (client.py lines 365-368). -/
def upload_message_payload (incident_id rfc_message_id : String)
    (recipient_addresses : List String) (sender subject disposition : Option String) : PyVal :=
  .dict (.cons "incident_id" (.str incident_id)
    (.cons "message" (.dict (upload_message_message rfc_message_id recipient_addresses
      sender subject disposition)) .nil))

/-- The endpoint path of download_message_mime (client.py line 449). -/
def download_message_mime_path (message_id : String) : String :=
  "/api/v1/tric/messages/" ++ message_id ++ "/download"

/--
download_message_mime (client.py lines 439-449): a GET dispatched with
return_json set to False, so the raw body bytes come back untransformed.
-/
def download_message_mime (message_id : String) (st : ClientState) (now : Int)
    (tok : TokenEndpointOutcome) (t : TransportOutcome) :
    Except RaisedError (ClientState × RequestResult) :=
  request st now tok false t

/-! ## Helper lemmas -/

theorem fieldsKeys_convert : ∀ (fs : PyFields), fieldsKeys (convert_fields fs) = presentKeys fs
  | .nil => rfl
  | .cons _ v rest => by
    cases v <;>
      simp [convert_fields, fieldsKeys, presentKeys, PyVal.isNone, fieldsKeys_convert rest]

mutual

theorem noAbsent_convert : ∀ (v : PyVal), cleanVal v = true → noAbsent (convert_value v) = true
  | .none, _ => rfl
  | .str _, _ => rfl
  | .int _, _ => rfl
  | .list xs, h => by
    simp only [convert_value, noAbsent]
    exact noAbsentList_convert xs (by simpa [cleanVal] using h)
  | .dataclass fs, h => by
    simp only [convert_value, noAbsent]
    exact noAbsentFields_convert fs (by simpa [cleanVal] using h)
  | .dict _, h => by simp [cleanVal] at h

theorem noAbsentList_convert :
    ∀ (xs : PyList), cleanList xs = true → noAbsentList (convert_list xs) = true
  | .nil, _ => rfl
  | .cons v rest, h => by
    simp only [cleanList, Bool.and_eq_true] at h
    simp only [convert_list, noAbsentList, Bool.and_eq_true]
    exact ⟨noAbsent_convert v h.1.2, noAbsentList_convert rest h.2⟩

theorem noAbsentFields_convert :
    ∀ (fs : PyFields), cleanFields fs = true → noAbsentFields (convert_fields fs) = true
  | .nil, _ => rfl
  | .cons k v rest, h => by
    simp only [cleanFields, Bool.and_eq_true] at h
    cases v with
    | none => exact noAbsentFields_convert rest h.2
    | str s =>
      simp only [convert_fields, noAbsentFields, Bool.and_eq_true]
      exact ⟨⟨rfl, noAbsent_convert (.str s) h.1⟩, noAbsentFields_convert rest h.2⟩
    | int n =>
      simp only [convert_fields, noAbsentFields, Bool.and_eq_true]
      exact ⟨⟨rfl, noAbsent_convert (.int n) h.1⟩, noAbsentFields_convert rest h.2⟩
    | list xs =>
      simp only [convert_fields, noAbsentFields, Bool.and_eq_true]
      refine ⟨⟨?_, noAbsent_convert (.list xs) h.1⟩, noAbsentFields_convert rest h.2⟩
      simp [convert_value, PyVal.isNone]
    | dataclass gs =>
      simp only [convert_fields, noAbsentFields, Bool.and_eq_true]
      refine ⟨⟨?_, noAbsent_convert (.dataclass gs) h.1⟩, noAbsentFields_convert rest h.2⟩
      simp [convert_value, PyVal.isNone]
    | dict gs =>
      have h1 := h.1
      simp [cleanVal] at h1

end

theorem cleanList_strPyList (xs : List String) : cleanList (strPyList xs) = true := by
  induction xs with
  | nil => rfl
  | cons s rest ih => simp [strPyList, cleanList, cleanVal, PyVal.isNone, ih]

theorem cleanVal_optStrList (o : Option (List String)) : cleanVal (optStrList o) = true := by
  cases o with
  | none => rfl
  | some xs => simp [optStrList, cleanVal, cleanList_strPyList xs]

theorem cleanVal_optTimeRange (o : Option TimeRangeFilter) : cleanVal (optTimeRange o) = true := by
  cases o with
  | none => rfl
  | some t => rfl

theorem cleanFields_append :
    ∀ (fs gs : PyFields), cleanFields fs = true → cleanFields gs = true →
      cleanFields (fieldsAppend fs gs) = true
  | .nil, _, _, hg => hg
  | .cons k v rest, gs, hf, hg => by
    simp only [cleanFields, Bool.and_eq_true] at hf
    simp only [fieldsAppend, cleanFields, Bool.and_eq_true]
    exact ⟨hf.1, cleanFields_append rest gs hf.2 hg⟩

theorem cleanFields_incidentFilters (f : IncidentFilters) : cleanFields f.fields = true := by
  simp [IncidentFilters.fields, cleanFields, cleanVal_optStrList, cleanVal_optTimeRange]

theorem cleanFields_messageFilters (g : MessageFilters) : cleanFields g.fields = true := by
  refine cleanFields_append _ _ (cleanFields_incidentFilters g.toIncidentFilters) ?_
  simp [cleanFields, cleanVal_optStrList]

theorem fieldsKeys_append :
    ∀ (fs gs : PyFields), fieldsKeys (fieldsAppend fs gs) = fieldsKeys fs ++ fieldsKeys gs
  | .nil, _ => rfl
  | .cons k v rest, gs => by
    simp [fieldsAppend, fieldsKeys, fieldsKeys_append rest gs]

theorem mem_keys_optTruthyEntry (k key : String) (o : Option String) :
    key ∈ fieldsKeys (optTruthyEntry k o) ↔ (key = k ∧ ∃ s, o = Option.some s ∧ s ≠ "") := by
  cases o with
  | none => simp [optTruthyEntry, fieldsKeys]
  | some s =>
    by_cases hs : s = "" <;> simp [optTruthyEntry, hs, fieldsKeys]

theorem ensure_valid_noop (tokv : String) (expiry now : Int) (o : TokenEndpointOutcome)
    (htok : tokv ≠ "") (hnow : now < expiry) :
    ensure_valid_token ⟨Option.some tokv, Option.some expiry⟩ now o
      = .ok (⟨Option.some tokv, Option.some expiry⟩, false) := by
  simp [ensure_valid_token, needs_refresh, htok, not_le.mpr hnow]

/-! ## Claims -/

/--
Claim C2 states the intended behavior, which the code misses on one path:
_handle_error is reached for every response status in [400, 600), but when
the error body parses to a non-object JSON value — for instance a 400
response with body text consisting of an empty JSON array — error_data.get
(client.py line 154) raises an untyped AttributeError that escapes
_request uncaught, instead of the typed BadRequestError promised by the
claim and by the docstrings of _request (client.py lines 122-126) and
_handle_error itself. Evaluating the model at that failing input: no typed
error is raised, the untyped AttributeError escapes.
-/
theorem dispatch_400_array_body_attribute_error :
    handle_error ⟨400, "[]", [91, 93], Option.some (.list .nil)⟩ = .attributeError ∧
    request_dispatch true (.response ⟨400, "[]", [91, 93], Option.some (.list .nil)⟩)
      = .error .attributeError ∧
    (∀ e : ApiError, RaisedError.attributeError ≠ .typed e) :=
  ⟨rfl, rfl, fun e h => RaisedError.noConfusion h⟩

/--
Claim C6: search_incidents with a filters object whose only present field
is source_filters = ["tap"], startRow 0, endRow 5 and no sort parameters
produces exactly the body with keys startRow, endRow and filters, the
filters object holding only source_filters, and no other key at any
level.
-/
theorem search_incidents_tap_example :
    search_incidents_payload (Option.some { source_filters := Option.some ["tap"] })
        0 5 Option.none
      = .dict (.cons "startRow" (.int 0) (.cons "endRow" (.int 5)
          (.cons "filters" (.dict (.cons "source_filters"
            (.list (.cons (.str "tap") .nil)) .nil)) .nil))) := rfl

/--
Claim C7: a dispatched request decoded as JSON whose response has a
non-error status and an empty body returns the empty mapping; it neither
raises nor returns Python None.
-/
theorem empty_body_returns_empty_mapping (r : HttpResponse)
    (hs : ¬ (400 ≤ r.status_code ∧ r.status_code < 600)) (ht : r.text = "") :
    request_dispatch true (.response r) = .ok (.json (.dict .nil)) := by
  simp [request_dispatch, hs, ht]

/-- Witness for C7 at a concrete 200 response with empty body. -/
theorem empty_body_returns_empty_mapping_witness :
    request_dispatch true (.response ⟨200, "", [], Option.none⟩) = .ok (.json (.dict .nil)) :=
  empty_body_returns_empty_mapping ⟨200, "", [], Option.none⟩ (by decide) rfl

/--
Claim C8: for every message id and every successful response of any
content type, download_message_mime returns exactly the raw bytes of the
transport response body, with no JSON parsing or other transformation
applied (stated with a currently valid token, so the call reaches the
transport).
-/
theorem download_mime_raw_bytes (message_id : String) (tokv : String) (expiry now : Int)
    (tok : TokenEndpointOutcome) (r : HttpResponse)
    (htok : tokv ≠ "") (hnow : now < expiry)
    (hs : ¬ (400 ≤ r.status_code ∧ r.status_code < 600)) :
    request_dispatch false (.response r) = .ok (.bytes r.content) ∧
    download_message_mime message_id ⟨Option.some tokv, Option.some expiry⟩ now tok (.response r)
      = .ok (⟨Option.some tokv, Option.some expiry⟩, .bytes r.content) := by
  constructor
  · simp [request_dispatch, hs]
  · simp [download_message_mime, request, ensure_valid_noop tokv expiry now tok htok hnow,
      request_dispatch, hs]

/-- Witness for C8 at a concrete binary 200 response. -/
theorem download_mime_raw_bytes_witness :
    request_dispatch false (.response ⟨200, "mime", [77, 73, 77, 69], Option.none⟩)
      = .ok (.bytes [77, 73, 77, 69]) ∧
    download_message_mime "m-1" ⟨Option.some "t", Option.some 100⟩ 0 (.transportFailure "x")
        (.response ⟨200, "mime", [77, 73, 77, 69], Option.none⟩)
      = .ok (⟨Option.some "t", Option.some 100⟩, .bytes [77, 73, 77, 69]) :=
  download_mime_raw_bytes "m-1" "t" 100 0 (.transportFailure "x")
    ⟨200, "mime", [77, 73, 77, 69], Option.none⟩ (by decide) (by decide) (by decide)

/--
Claim C9: the recursive serializer removes only fields whose value is
exactly None: a field set to the empty list or the empty string is kept
with that empty value even though it is falsy, every non-None field keeps
its key, and a filter object with source_filters explicitly set to the
empty list serializes to a dict still carrying the source_filters key.
-/
theorem asdict_drops_only_none (fs : PyFields) (k : String) :
    convert_fields (.cons k (.list .nil) fs) = .cons k (.list .nil) (convert_fields fs) ∧
    convert_fields (.cons k (.str "") fs) = .cons k (.str "") (convert_fields fs) ∧
    convert_fields (.cons k PyVal.none fs) = convert_fields fs ∧
    (∀ v : PyVal, v.isNone = false →
      fieldsKeys (convert_fields (.cons k v fs)) = k :: fieldsKeys (convert_fields fs)) ∧
    asdict_factory (IncidentFilters.fields { source_filters := Option.some [] })
      = .dict (.cons "source_filters" (.list .nil) .nil) := by
  refine ⟨rfl, rfl, rfl, ?_, rfl⟩
  intro v hv
  cases v <;> simp_all [convert_fields, fieldsKeys, PyVal.isNone]

/-- Witness for C9 at concrete fields. -/
theorem asdict_drops_only_none_witness :
    convert_fields (.cons "k" (.list .nil) .nil) = .cons "k" (.list .nil) (convert_fields .nil) ∧
    convert_fields (.cons "k" (.str "") .nil) = .cons "k" (.str "") (convert_fields .nil) ∧
    convert_fields (.cons "k" PyVal.none .nil) = convert_fields .nil ∧
    fieldsKeys (convert_fields (.cons "k" (.str "x") .nil))
      = "k" :: fieldsKeys (convert_fields .nil) ∧
    asdict_factory (IncidentFilters.fields { source_filters := Option.some [] })
      = .dict (.cons "source_filters" (.list .nil) .nil) :=
  ⟨(asdict_drops_only_none .nil "k").1, (asdict_drops_only_none .nil "k").2.1,
    (asdict_drops_only_none .nil "k").2.2.1,
    (asdict_drops_only_none .nil "k").2.2.2.1 (.str "x") rfl,
    (asdict_drops_only_none .nil "k").2.2.2.2⟩

/--
Claim C10: in upload_message the optional arguments sender, subject and
disposition are included in the outgoing message object only when truthy:
an explicitly supplied empty string is silently omitted exactly as if the
argument had not been given, while rfcMessageId and recipient_addresses
are always included regardless of value.
-/
theorem upload_message_truthiness (incident_id rfc : String) (recips : List String)
    (sender subject disposition : Option String) :
    upload_message_payload incident_id rfc recips (Option.some "") subject disposition
      = upload_message_payload incident_id rfc recips Option.none subject disposition ∧
    upload_message_payload incident_id rfc recips sender (Option.some "") disposition
      = upload_message_payload incident_id rfc recips sender Option.none disposition ∧
    upload_message_payload incident_id rfc recips sender subject (Option.some "")
      = upload_message_payload incident_id rfc recips sender subject Option.none ∧
    "rfcMessageId" ∈ fieldsKeys (upload_message_message rfc recips sender subject disposition) ∧
    "recipient_addresses" ∈ fieldsKeys (upload_message_message rfc recips sender subject disposition) ∧
    ("sender" ∈ fieldsKeys (upload_message_message rfc recips sender subject disposition)
      ↔ ∃ s, sender = Option.some s ∧ s ≠ "") ∧
    ("subject" ∈ fieldsKeys (upload_message_message rfc recips sender subject disposition)
      ↔ ∃ s, subject = Option.some s ∧ s ≠ "") ∧
    ("disposition" ∈ fieldsKeys (upload_message_message rfc recips sender subject disposition)
      ↔ ∃ s, disposition = Option.some s ∧ s ≠ "") := by
  refine ⟨?_, ?_, ?_, ?_, ?_, ?_, ?_, ?_⟩
  · simp [upload_message_payload, upload_message_message, optTruthyEntry]
  · simp [upload_message_payload, upload_message_message, optTruthyEntry]
  · simp [upload_message_payload, upload_message_message, optTruthyEntry]
  all_goals
    simp [upload_message_message, fieldsKeys, fieldsKeys_append, mem_keys_optTruthyEntry]

/--
Counterexample to claim C3 as stated: a transport-level failure reaching
the token endpoint (for instance connection refused) is re-raised by
_refresh_token as the generic base exception ProofpointApiException
(client.py lines 93-94), whose kind is not the AuthError kind, so not
every token-refresh failure surfaces as AuthError.
-/
theorem refresh_transport_failure_not_auth :
    refresh_token 0 (.transportFailure "Connection refused")
      = .error { kind := .generic,
                 message := .str "Failed to obtain access token: Connection refused",
                 status_code := Option.none, response_text := Option.none } ∧
    ErrKind.generic ≠ ErrKind.auth :=
  ⟨rfl, by decide⟩

/--
Claim C3 (amended): a token-refresh failure caused by a non-200
token-endpoint response surfaces as AuthError, while a transport-level
failure (connection refused, timeout, DNS failure) reaching the token
endpoint surfaces as the generic base API exception, not as AuthError;
the two cases differ in error kind, not only in message content.
-/
theorem refresh_failure_kinds (now : Int) (r : TokenResponse) (e : String)
    (hr : r.status_code ≠ 200) :
    (∃ err, refresh_token now (.response r) = .error err ∧ err.kind = .auth) ∧
    (∃ err, refresh_token now (.transportFailure e) = .error err ∧
      err.kind = .generic ∧ err.kind ≠ .auth) := by
  refine ⟨⟨{ kind := .auth, message := .str "Failed to obtain access token",
             status_code := Option.some r.status_code,
             response_text := Option.some r.text },
           by simp [refresh_token, hr], rfl⟩,
          ⟨{ kind := .generic, message := .str ("Failed to obtain access token: " ++ e),
             status_code := Option.none, response_text := Option.none },
           rfl, rfl, by simp⟩⟩

/-- Witness for the amended C3 at a 500 token response and a timeout. -/
theorem refresh_failure_kinds_witness :
    (∃ err, refresh_token 0 (.response ⟨500, "boom", "", Option.none⟩) = .error err ∧
      err.kind = .auth) ∧
    (∃ err, refresh_token 0 (.transportFailure "timed out") = .error err ∧
      err.kind = .generic ∧ err.kind ≠ .auth) :=
  refresh_failure_kinds 0 ⟨500, "boom", "", Option.none⟩ "timed out" (by decide)

/--
Claim C4: a non-200 token-endpoint exchange (for instance 500) makes the
refresh fail with an AuthError carrying that status and the raw response
body; the stored token value and expiry are untouched by the failed
refresh (construction leaves them absent, the exception propagating from
ensure-valid with no new state), so any later ensure-valid attempt on the
initial state performs the refresh again; and since the constructor does
the first fetch, construction itself fails with that AuthError.
-/
theorem refresh_non200_fails_and_retries (now : Int) (r : TokenResponse)
    (hr : r.status_code ≠ 200) :
    refresh_token now (.response r)
      = .error { kind := .auth, message := .str "Failed to obtain access token",
                 status_code := Option.some r.status_code,
                 response_text := Option.some r.text } ∧
    client_init now (.response r)
      = .error { kind := .auth, message := .str "Failed to obtain access token",
                 status_code := Option.some r.status_code,
                 response_text := Option.some r.text } ∧
    ensure_valid_token initialState now (.response r)
      = .error { kind := .auth, message := .str "Failed to obtain access token",
                 status_code := Option.some r.status_code,
                 response_text := Option.some r.text } ∧
    (∀ t2 : Int, needs_refresh initialState t2 = true) := by
  have h1 : refresh_token now (.response r)
      = .error { kind := .auth, message := .str "Failed to obtain access token",
                 status_code := Option.some r.status_code,
                 response_text := Option.some r.text } := by
    simp [refresh_token, hr]
  refine ⟨h1, ?_, ?_, fun _ => rfl⟩
  · simp [client_init, h1]
  · simp [ensure_valid_token, needs_refresh, initialState, h1, Except.map]

/-- Witness for C4 at a concrete 500 token-endpoint response. -/
theorem refresh_non200_fails_and_retries_witness :
    refresh_token 50 (.response ⟨500, "Internal Server Error", "", Option.none⟩)
      = .error { kind := .auth, message := .str "Failed to obtain access token",
                 status_code := Option.some 500,
                 response_text := Option.some "Internal Server Error" } ∧
    client_init 50 (.response ⟨500, "Internal Server Error", "", Option.none⟩)
      = .error { kind := .auth, message := .str "Failed to obtain access token",
                 status_code := Option.some 500,
                 response_text := Option.some "Internal Server Error" } ∧
    ensure_valid_token initialState 50 (.response ⟨500, "Internal Server Error", "", Option.none⟩)
      = .error { kind := .auth, message := .str "Failed to obtain access token",
                 status_code := Option.some 500,
                 response_text := Option.some "Internal Server Error" } ∧
    (∀ t2 : Int, needs_refresh initialState t2 = true) :=
  refresh_non200_fails_and_retries 50 ⟨500, "Internal Server Error", "", Option.none⟩ (by decide)

/--
Claim C5: for every IncidentFilters or MessageFilters value passed to
search_incidents, search_messages or get_incident_count, the serialized
filters object in the outgoing payload contains, recursively through
nested filter objects and lists, exactly the fields whose values are
present: at every application the serializer keeps exactly the keys of the
non-None fields, and no key anywhere in the serialized filters object
carries None.
-/
theorem filters_payload_omits_absent_fields (fs : PyFields) (f : IncidentFilters)
    (g : MessageFilters) (start_row end_row : Int) (sp : Option (List SortParam)) :
    fieldsKeys (convert_fields fs) = presentKeys fs ∧
    noAbsent (asdict_factory f.fields) = true ∧
    noAbsent (asdict_factory g.fields) = true ∧
    search_incidents_payload (Option.some f) start_row end_row sp
      = .dict (.cons "startRow" (.int start_row) (.cons "endRow" (.int end_row)
          (.cons "filters" (asdict_factory f.fields) (sortParamsEntry sp)))) ∧
    search_messages_payload (Option.some g) start_row end_row sp
      = .dict (.cons "startRow" (.int start_row) (.cons "endRow" (.int end_row)
          (.cons "filters" (asdict_factory g.fields) (sortParamsEntry sp)))) ∧
    get_incident_count_payload f = .dict (.cons "filters" (asdict_factory f.fields) .nil) := by
  refine ⟨fieldsKeys_convert fs, ?_, ?_, rfl, rfl, rfl⟩
  · simpa [asdict_factory, noAbsent] using
      noAbsentFields_convert f.fields (cleanFields_incidentFilters f)
  · simpa [asdict_factory, noAbsent] using
      noAbsentFields_convert g.fields (cleanFields_messageFilters g)

theorem run_calls_no_refresh (tokv : String) (expiry : Int) (htok : tokv ≠ "")
    (os : Int → TokenEndpointOutcome) (ts : List Int) (hts : ∀ t ∈ ts, t < expiry) :
    run_calls ⟨Option.some tokv, Option.some expiry⟩ (ts.map (fun t => (t, os t)))
      = .ok (⟨Option.some tokv, Option.some expiry⟩, 0) := by
  induction ts with
  | nil => rfl
  | cons t rest ih =>
    have ht : t < expiry := hts t (List.mem_cons_self t rest)
    have hrest := ih (fun x hx => hts x (List.mem_cons_of_mem t hx))
    simp [run_calls, ensure_valid_noop tokv expiry t (os t) htok ht, hrest]

theorem run_calls_append (l1 l2 : List (Int × TokenEndpointOutcome)) :
    ∀ (st st2 st3 : ClientState) (n1 n2 : Nat),
      run_calls st l1 = .ok (st2, n1) → run_calls st2 l2 = .ok (st3, n2) →
      run_calls st (l1 ++ l2) = .ok (st3, n1 + n2) := by
  induction l1 with
  | nil =>
    intro st st2 st3 n1 n2 h1 h2
    simp only [run_calls, Except.ok.injEq, Prod.mk.injEq] at h1
    obtain ⟨rfl, rfl⟩ := h1
    simpa using h2
  | cons p l1 ih =>
    intro st st2 st3 n1 n2 h1 h2
    obtain ⟨t, o⟩ := p
    rw [List.cons_append]
    cases hev : ensure_valid_token st t o with
    | error e =>
      rw [run_calls, hev] at h1
      exact absurd h1 (by simp)
    | ok q =>
      obtain ⟨sta, did⟩ := q
      simp only [run_calls, hev] at h1 ⊢
      cases hrc : run_calls sta l1 with
      | error e => rw [hrc] at h1; simp at h1
      | ok q2 =>
        obtain ⟨stb, m⟩ := q2
        rw [hrc] at h1
        simp only [Except.ok.injEq, Prod.mk.injEq] at h1
        obtain ⟨rfl, rfl⟩ := h1
        rw [ih sta stb st3 m n2 hrc h2]
        cases did <;> simp [Nat.add_assoc, Nat.add_comm, Nat.add_left_comm]

/--
Claim C1: on one client, ensure-valid triggers a refresh exactly when no
token is held or the current time has reached the stored expiry; a
successful refresh at time t with server-declared expires_in stores expiry
t + (expires_in - 300); so with expires_in 3600 obtained at t0 by the
constructor, the refresh count is exactly one across any sequential calls
all earlier than t0 + 3300, and exactly two when a call at tc at or past
t0 + 3300 crosses the stored expiry (that call triggering exactly one
additional refresh) with the remaining calls before the new expiry
tc + 3300.
-/
theorem token_refresh_schedule
    (t0 tc : Int) (tokv tok2 body : String)
    (htok : tokv ≠ "") (htok2 : tok2 ≠ "")
    (ts1 ts2 : List Int) (os1 os2 : Int → TokenEndpointOutcome)
    (hts1 : ∀ t ∈ ts1, t < t0 + 3300)
    (htc : t0 + 3300 ≤ tc)
    (hts2 : ∀ t ∈ ts2, t < tc + 3300) :
    (∀ now : Int, needs_refresh initialState now = true) ∧
    (∀ now expiry : Int,
      (needs_refresh ⟨Option.some tokv, Option.some expiry⟩ now = true ↔ expiry ≤ now)) ∧
    (∀ (t : Int) (r : TokenResponse), r.status_code = 200 →
      refresh_token t (.response r)
        = .ok ⟨Option.some r.access_token,
               Option.some (t + (r.expires_in.getD 3600 - 300))⟩) ∧
    client_init_and_run t0 (.response ⟨200, body, tokv, Option.some 3600⟩)
        (ts1.map (fun t => (t, os1 t)))
      = .ok (⟨Option.some tokv, Option.some (t0 + 3300)⟩, 1) ∧
    client_init_and_run t0 (.response ⟨200, body, tokv, Option.some 3600⟩)
        (ts1.map (fun t => (t, os1 t)) ++
          (tc, .response ⟨200, body, tok2, Option.some 3600⟩) ::
            ts2.map (fun t => (t, os2 t)))
      = .ok (⟨Option.some tok2, Option.some (tc + 3300)⟩, 2) := by
  have hinit : client_init t0 (.response ⟨200, body, tokv, Option.some 3600⟩)
      = .ok ⟨Option.some tokv, Option.some (t0 + 3300)⟩ := by
    simp [client_init, refresh_token]
  have hrun1 := run_calls_no_refresh tokv (t0 + 3300) htok os1 ts1 hts1
  have hcross : run_calls ⟨Option.some tokv, Option.some (t0 + 3300)⟩
      ((tc, .response ⟨200, body, tok2, Option.some 3600⟩) :: ts2.map (fun t => (t, os2 t)))
      = .ok (⟨Option.some tok2, Option.some (tc + 3300)⟩, 1) := by
    have hneed : needs_refresh ⟨Option.some tokv, Option.some (t0 + 3300)⟩ tc = true := by
      simp [needs_refresh, htok, htc]
    have href : refresh_token tc
        (.response ⟨200, body, tok2, Option.some 3600⟩)
        = .ok ⟨Option.some tok2, Option.some (tc + 3300)⟩ := by
      simp [refresh_token]
    have hrun2 := run_calls_no_refresh tok2 (tc + 3300) htok2 os2 ts2 hts2
    simp [run_calls, ensure_valid_token, hneed, href, Except.map, hrun2]
  refine ⟨fun _ => rfl, ?_, ?_, ?_, ?_⟩
  · intro now expiry
    simp [needs_refresh, htok, ge_iff_le]
  · intro t r hr
    simp [refresh_token, hr]
  · simp [client_init_and_run, hinit, hrun1]
  · simp only [client_init_and_run, hinit]
    rw [run_calls_append _ _ _ _ _ 0 1 hrun1 hcross]

/-- Witness for C1: expires_in 3600 at time 0; three calls before 3300
trigger no refresh (one refresh in total, the constructor's); a call at
3300 then two more before 6600 trigger exactly one more (two in total). -/
theorem token_refresh_schedule_witness :
    needs_refresh initialState 9999 = true ∧
    (needs_refresh ⟨Option.some "a", Option.some 5⟩ 5 = true ↔ (5 : Int) ≤ 5) ∧
    refresh_token 7 (.response ⟨200, "", "c", Option.some 600⟩)
      = .ok ⟨Option.some "c", Option.some (7 + ((Option.some (600 : Int)).getD 3600 - 300))⟩ ∧
    client_init_and_run 0 (.response ⟨200, "", "a", Option.some 3600⟩)
        ([0, 1650, 3299].map (fun t => (t, TokenEndpointOutcome.transportFailure "unused")))
      = .ok (⟨Option.some "a", Option.some (0 + 3300)⟩, 1) ∧
    client_init_and_run 0 (.response ⟨200, "", "a", Option.some 3600⟩)
        ([0, 1650, 3299].map (fun t => (t, TokenEndpointOutcome.transportFailure "unused")) ++
          (3300, .response ⟨200, "", "b", Option.some 3600⟩) ::
            [3301, 6599].map (fun t => (t, TokenEndpointOutcome.transportFailure "unused")))
      = .ok (⟨Option.some "b", Option.some ((3300 : Int) + 3300)⟩, 2) := by
  have h := token_refresh_schedule 0 3300 "a" "b" "" (by decide) (by decide)
    [0, 1650, 3299] [3301, 6599]
    (fun _ => TokenEndpointOutcome.transportFailure "unused")
    (fun _ => TokenEndpointOutcome.transportFailure "unused")
    (by decide) (by decide) (by decide)
  exact ⟨h.1 9999, h.2.1 5 5, h.2.2.1 7 ⟨200, "", "c", Option.some 600⟩ rfl,
    h.2.2.2.1, h.2.2.2.2⟩

end ProofpointClient
